import Mathlib

/-!
Verification of `scripts/generate_homepage_figures.py`.

The script is embedded shallowly:
* numpy float arrays become `List ℚ` (the claims under scrutiny concern the
  recurrence structure, lengths and indexing of the arrays, not rounding);
* numpy indexing is fallible (`IndexError` on an out-of-range index), so
  array reads and writes return `Option`;
* the numpy global random generator is a deterministic stream determined by
  the seed and the position in the stream; the concrete Mersenne-Twister
  values are irrelevant to every claim, so the stream is a parameter;
* the plotting library is modelled by the trace of externally visible
  effects the script performs (figure events, `savefig`, `close`, `print`)
  and, for error propagation, by fallible primitive operations.
-/

namespace GenFigures

/-! ### The Lorenz integration (`generate_lorenz_attractor`, lines 32-45) -/

/-- `dt = 0.01` (line 34). -/
def dt : ℚ := 1 / 100

/-- `sigma = 10` (line 35). -/
def sigma : ℚ := 10

/-- `rho = 28` (line 35). -/
def rho : ℚ := 28

/-- `beta = 8/3` (line 35). -/
def beta : ℚ := 8 / 3

/-- One explicit-Euler step of the Lorenz system, the body of lines 41-43
expressed on a state triple. -/
def lorenzStep (p : ℚ × ℚ × ℚ) : ℚ × ℚ × ℚ :=
  (p.1 + dt * sigma * (p.2.1 - p.1),
   p.2.1 + dt * (p.1 * (rho - p.2.2) - p.2.1),
   p.2.2 + dt * (p.1 * p.2.1 - beta * p.2.2))

/-- The mathematical trajectory: state after `n` Euler steps from `(1,1,1)`. -/
def lorenzState : ℕ → ℚ × ℚ × ℚ
  | 0 => (1, 1, 1)
  | n + 1 => lorenzStep (lorenzState n)

/-- numpy array read `a[i]`: fails (IndexError) when `i` is out of range. -/
def getA (l : List ℚ) (i : ℕ) : Option ℚ := l[i]?

/-- numpy array write `a[i] = v`: fails (IndexError) when `i` is out of range. -/
def setA (l : List ℚ) (i : ℕ) (v : ℚ) : Option (List ℚ) :=
  if i < l.length then some (l.set i v) else none

/-- The body of the `for` loop at lines 40-43, for a given index `i`.
Line 41 writes `x[i]` from `x[i-1], y[i-1]`; line 42 then reads `x[i-1]`
from the already-updated `x` array; line 43 reads from the updated `x`
and `y` arrays.  Each read and write is fallible, as in numpy. -/
def lorenzBody (s : List ℚ × List ℚ × List ℚ) (i : ℕ) :
    Option (List ℚ × List ℚ × List ℚ) := do
  let (x, y, z) := s
  let a ← getA x (i - 1)
  let b ← getA y (i - 1)
  let x1 ← setA x i (a + dt * sigma * (b - a))
  let a1 ← getA x1 (i - 1)
  let b1 ← getA y (i - 1)
  let c1 ← getA z (i - 1)
  let y1 ← setA y i (b1 + dt * (a1 * (rho - c1) - b1))
  let a2 ← getA x1 (i - 1)
  let b2 ← getA y1 (i - 1)
  let c2 ← getA z (i - 1)
  let z1 ← setA z i (c2 + dt * (a2 * b2 - beta * c2))
  pure (x1, y1, z1)

/-- `for i in range(1, n_points)` (line 40): run `lorenzBody` for `m`
successive indices starting at `i`. -/
def lorenzLoop : ℕ → ℕ → List ℚ × List ℚ × List ℚ →
    Option (List ℚ × List ℚ × List ℚ)
  | 0, _, s => some s
  | m + 1, i, s => do
    let s1 ← lorenzBody s i
    lorenzLoop m (i + 1) s1

/-- `generate_lorenz_attractor` (lines 32-45): allocate three zero arrays of
length `n_points` (line 37), write the initial condition into index 0
(line 38), then run the Euler loop for indices `1, …, n_points - 1`
(lines 40-43) and return the triple (line 45). -/
def generate_lorenz_attractor (n_points : ℕ) :
    Option (List ℚ × List ℚ × List ℚ) := do
  let x := List.replicate n_points (0 : ℚ)
  let y := List.replicate n_points (0 : ℚ)
  let z := List.replicate n_points (0 : ℚ)
  let x0 ← setA x 0 1
  let y0 ← setA y 0 1
  let z0 ← setA z 0 1
  lorenzLoop (n_points - 1) 1 (x0, y0, z0)

/-- The single call site inside `create_hero_image` (line 82). -/
def create_hero_image_lorenz : Option (List ℚ × List ℚ × List ℚ) :=
  generate_lorenz_attractor 10000

/-- The default argument `n_points=10000` of line 32: calling the routine
with no argument. -/
def generate_lorenz_attractor_default : Option (List ℚ × List ℚ × List ℚ) :=
  generate_lorenz_attractor 10000

/-- When all reads at `i - 1` succeed and the write index `i` is in range,
`lorenzBody` performs exactly the three Euler updates of lines 41-43. -/
theorem lorenzBody_some (x y z : List ℚ) (i : ℕ) (h1 : 1 ≤ i)
    (hxl : i < x.length) (hyl : i < y.length) (hzl : i < z.length)
    (a b c : ℚ) (ha : x[i - 1]? = some a) (hb : y[i - 1]? = some b)
    (hc : z[i - 1]? = some c) :
    lorenzBody (x, y, z) i =
      some (x.set i (a + dt * sigma * (b - a)),
            y.set i (b + dt * (a * (rho - c) - b)),
            z.set i (c + dt * (a * b - beta * c))) := by
  have hne : i ≠ i - 1 := by omega
  simp [lorenzBody, getA, setA, ha, hb, hc, hxl, hyl, hzl,
    List.getElem?_set_ne hne]

/-- Loop invariant for lines 40-43: if the entries below `i` already hold the
Euler trajectory and `i + m = n`, running the remaining `m` iterations
succeeds and fills the whole arrays with the trajectory. -/
theorem lorenzLoop_spec (m : ℕ) : ∀ (i n : ℕ) (x y z : List ℚ),
    x.length = n → y.length = n → z.length = n →
    1 ≤ i → i + m = n →
    (∀ j, j < i → x[j]? = some (lorenzState j).1) →
    (∀ j, j < i → y[j]? = some (lorenzState j).2.1) →
    (∀ j, j < i → z[j]? = some (lorenzState j).2.2) →
    ∃ xr yr zr, lorenzLoop m i (x, y, z) = some (xr, yr, zr) ∧
      xr.length = n ∧ yr.length = n ∧ zr.length = n ∧
      (∀ j, j < n → xr[j]? = some (lorenzState j).1) ∧
      (∀ j, j < n → yr[j]? = some (lorenzState j).2.1) ∧
      (∀ j, j < n → zr[j]? = some (lorenzState j).2.2) := by
  induction m with
  | zero =>
    intro i n x y z hx hy hz h1 hmn hgx hgy hgz
    exact ⟨x, y, z, rfl, hx, hy, hz,
      fun j hj => hgx j (by omega), fun j hj => hgy j (by omega),
      fun j hj => hgz j (by omega)⟩
  | succ m ih =>
    intro i n x y z hx hy hz h1 hmn hgx hgy hgz
    have hin : i < n := by omega
    have ha := hgx (i - 1) (by omega)
    have hb := hgy (i - 1) (by omega)
    have hc := hgz (i - 1) (by omega)
    have hstep : lorenzState i = lorenzStep (lorenzState (i - 1)) := by
      have hi : i = (i - 1) + 1 := by omega
      conv_lhs => rw [hi]
      rfl
    have hbody := lorenzBody_some x y z i h1 (by omega) (by omega) (by omega)
      _ _ _ ha hb hc
    have hfill : ∀ (l : List ℚ) (v : ℚ)
        (f : ℕ → ℚ), l.length = n →
        (∀ j, j < i → l[j]? = some (f j)) → v = f i →
        (∀ j, j < i + 1 → (l.set i v)[j]? = some (f j)) := by
      intro l v f hl hg hv j hj
      by_cases hji : j = i
      · subst hji
        rw [List.getElem?_set_self (by omega), hv]
      · rw [List.getElem?_set_ne (by omega)]
        exact hg j (by omega)
    have hvx : (lorenzState (i - 1)).1 +
        dt * sigma * ((lorenzState (i - 1)).2.1 - (lorenzState (i - 1)).1) =
        (lorenzState i).1 := by rw [hstep]; rfl
    have hvy : (lorenzState (i - 1)).2.1 +
        dt * ((lorenzState (i - 1)).1 * (rho - (lorenzState (i - 1)).2.2) -
          (lorenzState (i - 1)).2.1) = (lorenzState i).2.1 := by
      rw [hstep]; rfl
    have hvz : (lorenzState (i - 1)).2.2 +
        dt * ((lorenzState (i - 1)).1 * (lorenzState (i - 1)).2.1 -
          beta * (lorenzState (i - 1)).2.2) = (lorenzState i).2.2 := by
      rw [hstep]; rfl
    obtain ⟨xr, yr, zr, hrun, hl1, hl2, hl3, hg1, hg2, hg3⟩ :=
      ih (i + 1) n _ _ _ (by simp [hx]) (by simp [hy]) (by simp [hz])
        (by omega) (by omega)
        (hfill x _ (fun j => (lorenzState j).1) hx hgx hvx)
        (hfill y _ (fun j => (lorenzState j).2.1) hy hgy hvy)
        (hfill z _ (fun j => (lorenzState j).2.2) hz hgz hvz)
    refine ⟨xr, yr, zr, ?_, hl1, hl2, hl3, hg1, hg2, hg3⟩
    simp only [lorenzLoop, hbody, Option.bind_some]
    exact hrun

/-- Full characterisation of `generate_lorenz_attractor` for `n ≥ 1`: it
succeeds, the three arrays all have length `n`, and entry `j` of each array
is the corresponding coordinate of the Euler trajectory `lorenzState j`. -/
theorem generate_lorenz_attractor_spec (n : ℕ) (h : 1 ≤ n) :
    ∃ x y z, generate_lorenz_attractor n = some (x, y, z) ∧
      x.length = n ∧ y.length = n ∧ z.length = n ∧
      (∀ j, j < n → x[j]? = some (lorenzState j).1) ∧
      (∀ j, j < n → y[j]? = some (lorenzState j).2.1) ∧
      (∀ j, j < n → z[j]? = some (lorenzState j).2.2) := by
  have hlen : (List.replicate n (0 : ℚ)).length = n := by simp
  have h0 : 0 < (List.replicate n (0 : ℚ)).length := by omega
  have hn : 0 < n := h
  have hinit1 : ∀ j, j < 1 →
      ((List.replicate n (0 : ℚ)).set 0 1)[j]? = some (lorenzState j).1 := by
    intro j hj
    have hj0 : j = 0 := by omega
    subst hj0
    exact List.getElem?_set_self h0
  have hinit2 : ∀ j, j < 1 →
      ((List.replicate n (0 : ℚ)).set 0 1)[j]? = some (lorenzState j).2.1 := by
    intro j hj
    have hj0 : j = 0 := by omega
    subst hj0
    exact List.getElem?_set_self h0
  have hinit3 : ∀ j, j < 1 →
      ((List.replicate n (0 : ℚ)).set 0 1)[j]? = some (lorenzState j).2.2 := by
    intro j hj
    have hj0 : j = 0 := by omega
    subst hj0
    exact List.getElem?_set_self h0
  obtain ⟨xr, yr, zr, hrun, hl1, hl2, hl3, hg1, hg2, hg3⟩ :=
    lorenzLoop_spec (n - 1) 1 n _ _ _ (by simp) (by simp) (by simp)
      le_rfl (by omega) hinit1 hinit2 hinit3
  exact ⟨xr, yr, zr, by simp [generate_lorenz_attractor, setA, hn, hrun],
    hl1, hl2, hl3, hg1, hg2, hg3⟩

/-- Unfolding the trajectory one step backwards at a positive index. -/
theorem lorenzState_succ (i : ℕ) (h : 1 ≤ i) :
    lorenzState i = lorenzStep (lorenzState (i - 1)) := by
  have hi : i = (i - 1) + 1 := by omega
  conv_lhs => rw [hi]
  rfl

/-- C1: the Lorenz trajectory is computed by fixed-step explicit Euler with
σ = 10, ρ = 28, β = 8/3, dt = 0.01: for every `n_points ≥ 1` and every
`1 ≤ i < n_points`, the arrays returned by `generate_lorenz_attractor`
satisfy `x[i] = x[i-1] + dt·σ·(y[i-1] − x[i-1])`,
`y[i] = y[i-1] + dt·(x[i-1]·(ρ − z[i-1]) − y[i-1])` and
`z[i] = z[i-1] + dt·(x[i-1]·y[i-1] − β·z[i-1])`. -/
theorem lorenz_euler_recurrence (n i : ℕ) (h1 : 1 ≤ i) (h2 : i < n) :
    dt = 1 / 100 ∧ sigma = 10 ∧ rho = 28 ∧ beta = 8 / 3 ∧
    ∃ x y z, generate_lorenz_attractor n = some (x, y, z) ∧
      ∃ a b c, x[i - 1]? = some a ∧ y[i - 1]? = some b ∧
        z[i - 1]? = some c ∧
        x[i]? = some (a + dt * sigma * (b - a)) ∧
        y[i]? = some (b + dt * (a * (rho - c) - b)) ∧
        z[i]? = some (c + dt * (a * b - beta * c)) := by
  refine ⟨rfl, rfl, rfl, rfl, ?_⟩
  obtain ⟨x, y, z, hg, hl1, hl2, hl3, hvx, hvy, hvz⟩ :=
    generate_lorenz_attractor_spec n (by omega)
  refine ⟨x, y, z, hg, (lorenzState (i - 1)).1, (lorenzState (i - 1)).2.1,
    (lorenzState (i - 1)).2.2, hvx _ (by omega), hvy _ (by omega),
    hvz _ (by omega), ?_, ?_, ?_⟩
  · rw [hvx i (by omega), lorenzState_succ i h1]
    rfl
  · rw [hvy i (by omega), lorenzState_succ i h1]
    rfl
  · rw [hvz i (by omega), lorenzState_succ i h1]
    rfl

/-- C1 witness: the recurrence instantiated at `n_points = 2`, `i = 1`. -/
theorem lorenz_euler_recurrence_witness :
    dt = 1 / 100 ∧ sigma = 10 ∧ rho = 28 ∧ beta = 8 / 3 ∧
    ∃ x y z, generate_lorenz_attractor 2 = some (x, y, z) ∧
      ∃ a b c, x[1 - 1]? = some a ∧ y[1 - 1]? = some b ∧
        z[1 - 1]? = some c ∧
        x[1]? = some (a + dt * sigma * (b - a)) ∧
        y[1]? = some (b + dt * (a * (rho - c) - b)) ∧
        z[1]? = some (c + dt * (a * b - beta * c)) :=
  lorenz_euler_recurrence 2 1 (by norm_num) (by norm_num)

/-- C2: for every `n_points ≥ 1` the function returns three sequences and
all three have length `n_points`. -/
theorem lorenz_three_equal_lengths (n : ℕ) (h : 1 ≤ n) :
    ∃ x y z, generate_lorenz_attractor n = some (x, y, z) ∧
      x.length = n ∧ y.length = n ∧ z.length = n := by
  obtain ⟨x, y, z, hg, hl1, hl2, hl3, -, -, -⟩ :=
    generate_lorenz_attractor_spec n h
  exact ⟨x, y, z, hg, hl1, hl2, hl3⟩

/-- C2 witness: three equal-length arrays at `n_points = 5`. -/
theorem lorenz_three_equal_lengths_witness :
    ∃ x y z, generate_lorenz_attractor 5 = some (x, y, z) ∧
      x.length = 5 ∧ y.length = 5 ∧ z.length = 5 :=
  lorenz_three_equal_lengths 5 (by norm_num)

/-- C9: for every `n_points ≥ 1` the trajectory starts at
`x[0] = y[0] = z[0] = 1` and the loop never overwrites the first entry. -/
theorem lorenz_initial_condition (n : ℕ) (h : 1 ≤ n) :
    ∃ x y z, generate_lorenz_attractor n = some (x, y, z) ∧
      x[0]? = some 1 ∧ y[0]? = some 1 ∧ z[0]? = some 1 := by
  obtain ⟨x, y, z, hg, -, -, -, hvx, hvy, hvz⟩ :=
    generate_lorenz_attractor_spec n h
  exact ⟨x, y, z, hg, hvx 0 (by omega), hvy 0 (by omega), hvz 0 (by omega)⟩

/-- C9 witness: initial condition at `n_points = 4`. -/
theorem lorenz_initial_condition_witness :
    ∃ x y z, generate_lorenz_attractor 4 = some (x, y, z) ∧
      x[0]? = some 1 ∧ y[0]? = some 1 ∧ z[0]? = some 1 :=
  lorenz_initial_condition 4 (by norm_num)

/-- C10: under the precondition `n_points ≥ 1` every array access in
`generate_lorenz_attractor` is in bounds, so the function succeeds; for
`n_points = 0` the function fails, because line 38 assigns to index 0 of
zero-length arrays. -/
theorem lorenz_index_safety :
    generate_lorenz_attractor 0 = none ∧
    ∀ n, 1 ≤ n → ∃ r, generate_lorenz_attractor n = some r := by
  constructor
  · decide
  · intro n hn
    obtain ⟨x, y, z, hg, -, -, -, -, -, -⟩ :=
      generate_lorenz_attractor_spec n hn
    exact ⟨(x, y, z), hg⟩

/-- C10 witness: failure at 0 and success at `n_points = 3`. -/
theorem lorenz_index_safety_witness :
    generate_lorenz_attractor 0 = none ∧
    ∃ r, generate_lorenz_attractor 3 = some r :=
  ⟨lorenz_index_safety.1, lorenz_index_safety.2 3 (by norm_num)⟩

/-- C7 counterexample: the integration routine does expose an input that
changes its behaviour — its `n_points` parameter; at the concrete inputs
2 and 3 the outputs differ (the returned arrays have different lengths). -/
theorem lorenz_n_points_changes_output :
    generate_lorenz_attractor 2 ≠ generate_lorenz_attractor 3 := by
  obtain ⟨x2, y2, z2, h2, hl2, -, -, -, -, -⟩ :=
    generate_lorenz_attractor_spec 2 (by norm_num)
  obtain ⟨x3, y3, z3, h3, hl3, -, -, -, -, -⟩ :=
    generate_lorenz_attractor_spec 3 (by norm_num)
  intro heq
  rw [h2, h3] at heq
  simp only [Option.some.injEq, Prod.mk.injEq] at heq
  obtain ⟨hx, -, -⟩ := heq
  rw [hx] at hl2
  omega

/-- C7 (amended): the Lorenz parameters σ, ρ, β, dt and the initial
condition are hard-coded; the routine takes one input `n_points` whose
default is 10000, and the single invocation inside the program
(`create_hero_image`, line 82) passes 10000, equal to the default, so every
invocation within the program produces the same trajectory of the same
fixed length 10000. -/
theorem lorenz_fixed_invocation :
    create_hero_image_lorenz = generate_lorenz_attractor_default ∧
    dt = 1 / 100 ∧ sigma = 10 ∧ rho = 28 ∧ beta = 8 / 3 ∧
    ∃ x y z, create_hero_image_lorenz = some (x, y, z) ∧
      x.length = 10000 ∧ y.length = 10000 ∧ z.length = 10000 := by
  refine ⟨rfl, rfl, rfl, rfl, rfl, ?_⟩
  obtain ⟨x, y, z, hg, hl1, hl2, hl3, -, -, -⟩ :=
    generate_lorenz_attractor_spec 10000 (by norm_num)
  exact ⟨x, y, z, hg, hl1, hl2, hl3⟩

/-! ### Effect traces of the two image routines and of the entry point

Each externally visible operation of the script is recorded as one event,
tagged with the figure it belongs to (1 = hero figure, 2 = measurement
figure).  The traces below follow the source line by line. -/

/-- One externally visible effect of the script. -/
inductive Ev where
  /-- `plt.figure(...)`: open figure `fig`. -/
  | open_fig (fig : ℕ)
  /-- generation of a batch of synthetic data destined for figure `fig`. -/
  | gen_data (fig : ℕ)
  /-- drawing of plot content (scatter / line plots) into figure `fig`. -/
  | draw_panel (fig : ℕ)
  /-- `fig.text` / `fig.patches` label or arrow added to figure `fig`. -/
  | add_text (fig : ℕ)
  /-- `plt.savefig(path, dpi=…)` of figure `fig` with figure size `w × h`. -/
  | savefig (fig : ℕ) (path : String) (dpi w h : ℕ)
  /-- `plt.close()` of figure `fig`. -/
  | close_fig (fig : ℕ)
  /-- `print(s)`. -/
  | print_line (s : String)
deriving DecidableEq

/-- Output path of the hero image (line 112). -/
def hero_png : String := "../public/images/high-dimensional-coherence.png"

/-- Output path of the measurement image (line 220). -/
def measurement_png : String := "../public/images/measurement-changes-system.png"

/-- Effect trace of `create_hero_image` (lines 48-115), in source order:
figure opened (54), random scatter data generated (64-72), scatter panel
drawn (74), Lorenz data generated (82), Lorenz panel drawn (85-90), five
`fig.text` labels added (97-110), file saved (112), figure closed (114),
message printed (115). -/
def create_hero_image_trace : List Ev :=
  [Ev.open_fig 1,
   Ev.gen_data 1,
   Ev.draw_panel 1,
   Ev.gen_data 1,
   Ev.draw_panel 1,
   Ev.add_text 1, Ev.add_text 1, Ev.add_text 1, Ev.add_text 1, Ev.add_text 1,
   Ev.savefig 1 hero_png 150 16 9,
   Ev.close_fig 1,
   Ev.print_line "Created: high-dimensional-coherence.png"]

/-- Effect trace of `create_measurement_image` (lines 118-223), in source
order: figure opened (124), forty torus trajectories each computed then
drawn (138-155), separator and projected signals generated (171-181) and
drawn (183-187), four labels (194-202), arrow and arrow label (205-213),
bottom text (216-218), file saved (220), figure closed (222), message
printed (223). -/
def create_measurement_image_trace : List Ev :=
  [Ev.open_fig 2] ++
  (List.replicate 40 [Ev.gen_data 2, Ev.draw_panel 2]).flatten ++
  [Ev.gen_data 2,
   Ev.draw_panel 2,
   Ev.add_text 2, Ev.add_text 2, Ev.add_text 2, Ev.add_text 2,
   Ev.add_text 2, Ev.add_text 2, Ev.add_text 2,
   Ev.savefig 2 measurement_png 150 16 9,
   Ev.close_fig 2,
   Ev.print_line "Created: measurement-changes-system.png"]

/-- Effect trace of the `__main__` block (lines 226-230): start message,
hero routine, measurement routine, end message. -/
def script_trace : List Ev :=
  [Ev.print_line "Generating homepage figures..."] ++
  create_hero_image_trace ++ create_measurement_image_trace ++
  [Ev.print_line "Done!"]

/-- The save commands (path, dpi, width, height) a trace performs. -/
def savesOf (t : List Ev) : List (String × ℕ × ℕ × ℕ) :=
  t.filterMap fun e =>
    match e with
    | Ev.savefig _ p d w h => some (p, d, w, h)
    | _ => none

/-- File-system semantics of a trace: each `savefig` overwrites the file at
its path with a freshly rendered image (`render` abstracts the plotting
encoder of the plotting library); no other event touches the file system. -/
def runFS {Img : Type} (render : String → ℕ → ℕ → ℕ → Img)
    (t : List Ev) (fs : String → Option Img) : String → Option Img :=
  fun q =>
    match (savesOf t).reverse.find? (fun w => w.1 = q) with
    | some w => some (render w.1 w.2.1 w.2.2.1 w.2.2.2)
    | none => fs q

/-- C4: each run writes exactly two PNG files, each to its fixed relative
path, at DPI 150 and figure size 16×9; each save overwrites whatever was at
that path; no other path of the file system is touched. -/
theorem script_writes_two_pngs {Img : Type}
    (render : String → ℕ → ℕ → ℕ → Img) (fs : String → Option Img) :
    savesOf script_trace =
      [(hero_png, 150, 16, 9), (measurement_png, 150, 16, 9)] ∧
    (".png".data.isSuffixOf hero_png.data) = true ∧
    (".png".data.isSuffixOf measurement_png.data) = true ∧
    runFS render script_trace fs hero_png =
      some (render hero_png 150 16 9) ∧
    runFS render script_trace fs measurement_png =
      some (render measurement_png 150 16 9) ∧
    ∀ q, q ≠ hero_png → q ≠ measurement_png →
      runFS render script_trace fs q = fs q := by
  have hsaves : savesOf script_trace =
      [(hero_png, 150, 16, 9), (measurement_png, 150, 16, 9)] := by rfl
  have hd1 : decide (measurement_png = hero_png) = false := by decide
  refine ⟨hsaves, by decide, by decide, ?_, ?_, ?_⟩
  · simp only [runFS, hsaves]
    norm_num [List.find?, hd1]
  · simp only [runFS, hsaves]
    norm_num [List.find?]
  · intro q h1 h2
    have e1 : decide (measurement_png = q) = false :=
      decide_eq_false (fun he => h2 he.symm)
    have e2 : decide (hero_png = q) = false :=
      decide_eq_false (fun he => h1 he.symm)
    simp only [runFS, hsaves]
    norm_num [List.find?, e1, e2]

/-- C4 witness: the file-system effect at a concrete renderer, a concrete
empty file system, and the concrete untouched path "other". -/
theorem script_writes_two_pngs_witness :
    savesOf script_trace =
      [(hero_png, 150, 16, 9), (measurement_png, 150, 16, 9)] ∧
    (".png".data.isSuffixOf hero_png.data) = true ∧
    (".png".data.isSuffixOf measurement_png.data) = true ∧
    runFS (fun p d w h => (p, d, w, h)) script_trace (fun _ => none)
      hero_png = some (hero_png, 150, 16, 9) ∧
    runFS (fun p d w h => (p, d, w, h)) script_trace (fun _ => none)
      measurement_png = some (measurement_png, 150, 16, 9) ∧
    runFS (fun p d w h => (p, d, w, h)) script_trace (fun _ => none)
      "other" = none := by
  obtain ⟨h1, h2, h3, h4, h5, h6⟩ :=
    script_writes_two_pngs (fun p d w h => (p, d, w, h)) (fun _ => none)
  exact ⟨h1, h2, h3, h4, h5, h6 "other" (by decide) (by decide)⟩

/-! ### Ordering predicates over traces (claim C6) -/

/-- Is the event a synthetic-data generation? -/
def isGen : Ev → Bool
  | Ev.gen_data _ => true
  | _ => false

/-- Is the event a panel drawing? -/
def isDraw : Ev → Bool
  | Ev.draw_panel _ => true
  | _ => false

/-- Is the event a text/arrow label addition? -/
def isText : Ev → Bool
  | Ev.add_text _ => true
  | _ => false

/-- Is the event a file save? -/
def isSave : Ev → Bool
  | Ev.savefig _ _ _ _ _ => true
  | _ => false

/-- Is the event a figure close? -/
def isCloseEv : Ev → Bool
  | Ev.close_fig _ => true
  | _ => false

/-- Does the event operate on figure `f`? (`print` belongs to no figure.) -/
def onFig (f : ℕ) : Ev → Bool
  | Ev.open_fig g => g = f
  | Ev.gen_data g => g = f
  | Ev.draw_panel g => g = f
  | Ev.add_text g => g = f
  | Ev.savefig g _ _ _ _ => g = f
  | Ev.close_fig g => g = f
  | Ev.print_line _ => false

/-- `allPBeforeQ p q t` holds when every `p`-event of `t` occurs strictly
before every `q`-event of `t`. -/
def allPBeforeQ (p q : Ev → Bool) : List Ev → Bool
  | [] => true
  | e :: rest =>
    (if q e then rest.all (fun f => ! p f) else true) && allPBeforeQ p q rest

/-- Auxiliary scan for `eachDrawHasEarlierGen`: `seen` records whether a
data-generation event has occurred already. -/
def drawAfterGen (seen : Bool) : List Ev → Bool
  | [] => true
  | e :: rest =>
    if isDraw e then seen && drawAfterGen seen rest
    else drawAfterGen (seen || isGen e) rest

/-- Every panel-drawing event of the trace is preceded by at least one
data-generation event. -/
def eachDrawHasEarlierGen (t : List Ev) : Bool := drawAfterGen false t

/-- C6 counterexample: it is not the case that, within `create_hero_image`,
all synthetic-data generation precedes all panel drawing — the scatter
panel is drawn (line 74) before the Lorenz data for the second panel is
generated (line 82). -/
theorem hero_trace_draw_before_gen :
    allPBeforeQ isGen isDraw create_hero_image_trace = false := by decide

/-- C6 (amended): execution is a single fixed sequence; within each image
routine every panel is drawn only after data generation has begun and each
drawing event is preceded by a data-generation event (data generation and
panel drawing interleave across the panels/trajectories), all annotations
come after all panel drawing, the save comes after all annotations, the
figure is closed after the save; and every event of the hero figure
precedes every event of the measurement figure, so the hero image is fully
saved and closed before the measurement image is generated. -/
theorem script_fixed_order :
    eachDrawHasEarlierGen create_hero_image_trace = true ∧
    eachDrawHasEarlierGen create_measurement_image_trace = true ∧
    allPBeforeQ isDraw isText create_hero_image_trace = true ∧
    allPBeforeQ isText isSave create_hero_image_trace = true ∧
    allPBeforeQ isSave isCloseEv create_hero_image_trace = true ∧
    allPBeforeQ isDraw isText create_measurement_image_trace = true ∧
    allPBeforeQ isText isSave create_measurement_image_trace = true ∧
    allPBeforeQ isSave isCloseEv create_measurement_image_trace = true ∧
    allPBeforeQ (onFig 1) (onFig 2) script_trace = true := by decide

/-! ### The near-duplicate second script (claim C8) -/

/-- Modelled from the spec: the repository holds a second, near-duplicate
copy of the visualization script ("the entire repository is two copies of
one throwaway visualization script"); only one copy is present under the
sources, so the second copy is modelled as performing the same effect
trace — rendering the two static marketing images and writing the PNG
files. -/
def second_script_trace : List Ev := script_trace

/-- The scripts of the repository: the embedded script and its
near-duplicate copy. -/
def repo_scripts : List (List Ev) := [script_trace, second_script_trace]

/-- C8: the repository contains a pair of near-duplicate scripts — two
copies of one visualization script — each of which renders the two static
marketing images and writes the two PNG files. -/
theorem repo_pair_of_scripts :
    repo_scripts.length = 2 ∧
    second_script_trace = script_trace ∧
    (savesOf script_trace).map Prod.fst = [hero_png, measurement_png] ∧
    (savesOf second_script_trace).map Prod.fst =
      [hero_png, measurement_png] ∧
    (".png".data.isSuffixOf hero_png.data) = true ∧
    (".png".data.isSuffixOf measurement_png.data) = true :=
  ⟨rfl, rfl, by rfl, by rfl, by decide, by decide⟩

/-! ### Random data generation and run-to-run determinism (claim C3)

The numpy global generator is deterministic: after `np.random.seed(n)` the
values produced depend only on `n` and on how many values have been drawn
since.  The concrete Mersenne-Twister values are irrelevant to the claim,
so the stream is a parameter `draw`, as are the transcendental functions
`sin`, `cos` and the constant π used by the deterministic torus and signal
formulas. -/

/-- State of the numpy global random generator: the seed it was last given
and the position reached in the stream of that seed. -/
abbrev RNGState := ℕ × ℕ

/-- `np.random.seed(n)` (lines 64 and 172): reset the generator to the
start of the stream of seed `n`, discarding the previous state. -/
def np_random_seed (n : ℕ) (_g : RNGState) : RNGState := (n, 0)

/-- Draw `k` successive values of the stream (`np.random.randn(k)`,
`np.random.uniform(…, k)`): the values depend only on the seed and the
positions consumed, and the position advances by `k`. -/
def drawVec (draw : ℕ → ℕ → ℚ) (k : ℕ) (g : RNGState) :
    List ℚ × RNGState :=
  ((List.range k).map (fun j => draw g.1 (g.2 + j)), (g.1, g.2 + k))

/-- `np.linspace(a, b, k)`: `k` evenly spaced points from `a` to `b`. -/
def linspace (a b : ℚ) (k : ℕ) : List ℚ :=
  (List.range k).map (fun j => a + (b - a) * j / (k - 1))

/-- The synthetic data `create_hero_image` generates: scatter coordinates
(lines 67-68), point sizes (line 72), Lorenz trajectory (line 82). -/
structure HeroData where
  scatter_x : List ℚ
  scatter_y : List ℚ
  sizes : List ℚ
  lorenz : Option (List ℚ × List ℚ × List ℚ)

/-- Data generation of `create_hero_image` (lines 64-72 and 82): seed 42,
then three batches of 200 draws, then the deterministic Lorenz call. -/
def create_hero_image_data (draw : ℕ → ℕ → ℚ) (g : RNGState) :
    HeroData × RNGState :=
  let g0 := np_random_seed 42 g
  let p1 := drawVec draw 200 g0
  let p2 := drawVec draw 200 p1.2
  let p3 := drawVec draw 200 p2.2
  ({ scatter_x := p1.1.map (fun v => v * (9 / 10)),
     scatter_y := p2.1.map (fun v => v * (9 / 10)),
     sizes := p3.1,
     lorenz := generate_lorenz_attractor 10000 }, p3.2)

/-- One torus trajectory of `create_measurement_image` (lines 138-149):
phases from the trajectory index, 400 parameter values, and the three
coordinate arrays on the torus of radii `R = 2.2`, `r = 0.8`. -/
def torus_trajectory (piQ : ℚ) (sinQ cosQ : ℚ → ℚ) (i : ℕ) :
    List ℚ × List ℚ × List ℚ :=
  let R : ℚ := 11 / 5
  let r : ℚ := 4 / 5
  let phase_u : ℚ := i * 2 * piQ / 40
  let phase_v : ℚ := i * (3 / 10)
  let t := linspace 0 (6 * piQ) 400
  let traj_u := t.map (fun s => s + phase_u)
  let traj_v := t.map (fun s => s * (618 / 1000) + phase_v)
  (List.zipWith (fun u v => (R + r * cosQ v) * cosQ u) traj_u traj_v,
   List.zipWith (fun u v => (R + r * cosQ v) * sinQ u) traj_u traj_v,
   traj_v.map (fun v => r * sinQ v))

/-- The synthetic data `create_measurement_image` generates: forty torus
trajectories and two noisy projected signals. -/
structure MeasurementData where
  torus : List (List ℚ × List ℚ × List ℚ)
  signal1 : List ℚ
  signal2 : List ℚ

/-- Data generation of `create_measurement_image` (lines 138-181): the
deterministic torus trajectories, then seed 42 (line 172), the projection
parameter values, the two sinusoidal signals (lines 176-177) and their
additive measurement noise, two batches of 800 draws (lines 180-181). -/
def create_measurement_image_data (piQ : ℚ) (sinQ cosQ : ℚ → ℚ)
    (draw : ℕ → ℕ → ℚ) (g : RNGState) : MeasurementData × RNGState :=
  let torus := (List.range 40).map (torus_trajectory piQ sinQ cosQ)
  let g0 := np_random_seed 42 g
  let t_proj := linspace 0 (10 * piQ) 800
  let s1 := t_proj.map (fun s => sinQ s + (3 / 10) * sinQ (3 * s))
  let s2 := t_proj.map
    (fun s => cosQ (s * (618 / 1000)) + (2 / 10) * cosQ (2 * s))
  let p1 := drawVec draw 800 g0
  let p2 := drawVec draw 800 p1.2
  ({ torus := torus,
     signal1 := List.zipWith (fun a b => a + (1 / 10) * b) s1 p1.1,
     signal2 := List.zipWith (fun a b => a + (1 / 10) * b) s2 p2.1 }, p2.2)

/-- All data a full run generates. -/
structure ScriptData where
  hero : HeroData
  meas : MeasurementData

/-- Data generation of one full run (`__main__`, lines 226-230): the hero
routine threads the generator state into the measurement routine. -/
def script_run_data (piQ : ℚ) (sinQ cosQ : ℚ → ℚ) (draw : ℕ → ℕ → ℚ)
    (g : RNGState) : ScriptData :=
  let h := create_hero_image_data draw g
  let m := create_measurement_image_data piQ sinQ cosQ draw h.2
  { hero := h.1, meas := m.1 }

/-- C3: both image routines reseed the generator with the fixed value 42
before generating any random data, so the data generated by each routine —
and hence the rendered bytes of both output images, for any renderer — are
identical across any two runs, whatever generator states the runs start
from. -/
theorem script_run_deterministic (piQ : ℚ) (sinQ cosQ : ℚ → ℚ)
    (draw : ℕ → ℕ → ℚ) {Bytes : Type} (render : ScriptData → Bytes)
    (g g' : RNGState) :
    create_hero_image_data draw g = create_hero_image_data draw g' ∧
    create_measurement_image_data piQ sinQ cosQ draw g =
      create_measurement_image_data piQ sinQ cosQ draw g' ∧
    render (script_run_data piQ sinQ cosQ draw g) =
      render (script_run_data piQ sinQ cosQ draw g') := by
  refine ⟨rfl, rfl, ?_⟩
  have h : script_run_data piQ sinQ cosQ draw g =
      script_run_data piQ sinQ cosQ draw g' := rfl
  rw [h]

/-! ### Error propagation (claim C5) -/

/-- The fallible primitive operations the script performs, in program
order, each modelled as an `Except` action supplied by the environment:
opening a figure can raise (missing font), saving can raise (missing
output directory), any library call can raise.  `E` is the exception
type. -/
structure Prims (E : Type) where
  print_start : Except E Unit
  hero_figure : Except E Unit
  hero_data : Except E Unit
  hero_draw : Except E Unit
  hero_text : Except E Unit
  hero_save : Except E Unit
  hero_close : Except E Unit
  hero_print : Except E Unit
  meas_figure : Except E Unit
  meas_data : Except E Unit
  meas_draw : Except E Unit
  meas_text : Except E Unit
  meas_save : Except E Unit
  meas_close : Except E Unit
  meas_print : Except E Unit
  print_done : Except E Unit

/-- The steps of a run, in source order (lines 226-230 calling lines 48-115
then 118-223). -/
def scriptSteps {E : Type} (s : Prims E) : List (Except E Unit) :=
  [s.print_start, s.hero_figure, s.hero_data, s.hero_draw, s.hero_text,
   s.hero_save, s.hero_close, s.hero_print, s.meas_figure, s.meas_data,
   s.meas_draw, s.meas_text, s.meas_save, s.meas_close, s.meas_print,
   s.print_done]

/-- Sequencing exactly as the script does: each step runs only when the
previous ones succeeded, and there is no handler anywhere (the source
contains no `try`/`except`), so an error short-circuits the rest. -/
def seqSteps {E : Type} : List (Except E Unit) → Except E Unit
  | [] => Except.ok ()
  | s :: rest => s.bind (fun _ => seqSteps rest)

/-- A full run of the script. -/
def runScript {E : Type} (s : Prims E) : Except E Unit :=
  seqSteps (scriptSteps s)

/-- The first error a list of steps raises, if any. -/
def firstErr {E : Type} : List (Except E Unit) → Option E
  | [] => none
  | Except.error e :: _ => some e
  | Except.ok _ :: rest => firstErr rest

/-- Sequencing returns the first raised error untransformed, and succeeds
when no step fails. -/
theorem seqSteps_eq {E : Type} (l : List (Except E Unit)) :
    seqSteps l = match firstErr l with
      | some e => Except.error e
      | none => Except.ok () := by
  induction l with
  | nil => rfl
  | cons s rest ih =>
    cases s with
    | error e => rfl
    | ok u => cases u; simpa [seqSteps, firstErr, Except.bind] using ih

/-- C5: the script installs no error handler: whichever primitive operation
fails first, its exception propagates unchanged out of the image routines
and the entry point — the run terminates with exactly that error — and when
no primitive fails the run completes; no operation catches, suppresses or
transforms an error. -/
theorem script_propagates_first_error {E : Type} (s : Prims E) :
    (∀ e, firstErr (scriptSteps s) = some e →
      runScript s = Except.error e) ∧
    (firstErr (scriptSteps s) = none → runScript s = Except.ok ()) := by
  constructor
  · intro e he
    rw [runScript, seqSteps_eq, he]
  · intro he
    rw [runScript, seqSteps_eq, he]

/-- A concrete failing environment: `plt.savefig` of the hero image raises
(for instance because the output directory is missing); every other
primitive succeeds. -/
def sampleFailure : Prims String :=
  { print_start := Except.ok (), hero_figure := Except.ok (),
    hero_data := Except.ok (), hero_draw := Except.ok (),
    hero_text := Except.ok (),
    hero_save := Except.error "missing output directory",
    hero_close := Except.ok (), hero_print := Except.ok (),
    meas_figure := Except.ok (), meas_data := Except.ok (),
    meas_draw := Except.ok (), meas_text := Except.ok (),
    meas_save := Except.ok (), meas_close := Except.ok (),
    meas_print := Except.ok (), print_done := Except.ok () }

/-- C5 witness: with the hero save failing, the run terminates with exactly
that error. -/
theorem script_propagates_first_error_witness :
    firstErr (scriptSteps sampleFailure) =
      some "missing output directory" ∧
    runScript sampleFailure =
      Except.error "missing output directory" :=
  ⟨rfl, (script_propagates_first_error sampleFailure).1 _ rfl⟩

end GenFigures
